/-
Verification of the adaptive-LMS core against its specification.

Shallow embedding of the Python modules
  app/core/metrics/synchronous.py
  app/core/metrics/aggregators.py
  app/core/adaptation/config.py
  app/core/adaptation/rules.py
  app/core/adaptation/engine.py
  app/services/recommendation_service.py (content-selection ladder)
into Lean 4.  Python floats are modelled as exact rationals (ℚ), Python
strings as Lean String, datetimes as rational epoch-seconds, fallible code
as Except/Option, and the database as an explicit environment value.
-/
import Mathlib

namespace AdaptiveLMS

/-! ## Python value model

`compute_accuracy` receives a JSONB reference answer: a scalar, a mapping,
or a list whose elements are scalars or mappings.  We model that value
domain directly (one mapping level, as handled by the source).
-/

/-- A scalar Python value as it can occur in a JSONB reference answer. -/
inductive PyFlat where
  | fstr (s : String)
  | fint (n : Int)
  | fbool (b : Bool)
  | fnone
  deriving DecidableEq, Repr

/-- An element of a reference-answer list: a scalar or a mapping of scalars. -/
inductive PyElem where
  | flat (v : PyFlat)
  | dict (entries : List (String × PyFlat))
  deriving DecidableEq, Repr

/-- A JSONB reference answer: scalar, mapping, or list. -/
inductive PyVal where
  | flat (v : PyFlat)
  | dict (entries : List (String × PyFlat))
  | list (elems : List PyElem)
  deriving DecidableEq, Repr

/-- Python truthiness of a scalar (`bool(v)`). -/
def PyFlat.truthy : PyFlat → Bool
  | .fstr s => s ≠ ""
  | .fint n => n ≠ 0
  | .fbool b => b
  | .fnone => false

/-- Python truthiness of a JSONB value (`bool(v)`). -/
def PyVal.truthy : PyVal → Bool
  | .flat v => v.truthy
  | .dict entries => entries ≠ []
  | .list elems => elems ≠ []

/-- `d.get(k)`: first binding of `k`, `None` when absent. -/
def dictGet (entries : List (String × PyFlat)) (k : String) : PyFlat :=
  match entries.find? (fun p => p.1 = k) with
  | some p => p.2
  | none => .fnone

/-- Python `x or y` on scalars: `x` when truthy, else `y`. -/
def pyOrFlat (x y : PyFlat) : PyFlat :=
  if x.truthy then x else y

/-- Python `str(v)` for a scalar value. -/
def PyFlat.toStr : PyFlat → String
  | .fstr s => s
  | .fint n => toString n
  | .fbool b => if b then "True" else "False"
  | .fnone => "None"

/-! ## compute_accuracy  (app/core/metrics/synchronous.py) -/

/-- Python `s.strip()`: drop whitespace from both ends. -/
def pyStrip (s : String) : String :=
  ⟨((s.data.dropWhile Char.isWhitespace).reverse.dropWhile Char.isWhitespace).reverse⟩

/-- Python `s.lower()` (ASCII case mapping, the range these answers use). -/
def pyLower (s : String) : String := ⟨s.data.map Char.toLower⟩

/-- Normalisation used by the comparisons: `s.strip().lower()`. -/
def normCI (s : String) : String := pyLower (pyStrip s)

/-- Extraction applied to a list element:
`if isinstance(ans, dict): ans = ans.get("answer") or ans.get("value")`. -/
def PyElem.extract : PyElem → PyFlat
  | .flat v => v
  | .dict entries => pyOrFlat (dictGet entries "answer") (dictGet entries "value")

/-- `compute_accuracy(user_answer, correct_answer, answer_type)`.
Mirrors the source: a dict reference collapses through keys
`answer`/`value`/`correct`; a list returns 1.0 on any (case-insensitive,
trimmed) element match; otherwise the scalar is stringified (`None` → `""`)
and compared per mode.  An unknown mode raises, modelled as `none`. -/
def compute_accuracy (user_answer : String) (correct_answer : PyVal)
    (answer_type : String) : Option ℚ :=
  -- dict: correct_answer = d.get("answer") or d.get("value") or d.get("correct")
  let collapsed : PyVal :=
    match correct_answer with
    | .dict entries =>
        .flat (pyOrFlat (dictGet entries "answer")
          (pyOrFlat (dictGet entries "value") (dictGet entries "correct")))
    | v => v
  match collapsed with
  | .list elems =>
      if elems.any (fun e => normCI user_answer = normCI e.extract.toStr)
      then some 1 else some 0
  | .dict _ => none   -- unreachable: collapsed is never a dict
  | .flat v =>
      let correct_answer_str := if v = .fnone then "" else v.toStr
      if answer_type = "binary" then
        some (if normCI user_answer = normCI correct_answer_str then 1 else 0)
      else if answer_type = "exact" then
        some (if pyStrip user_answer = pyStrip correct_answer_str then 1 else 0)
      else if answer_type = "partial" then
        some (if normCI user_answer = normCI correct_answer_str then 1 else 0)
      else
        none  -- raise ValueError(f"Unknown answer_type: ...")

/-! ## compute_response_time / compute_attempts_count / compute_followups_count -/

/-- `compute_response_time`: signed seconds between two timestamps. -/
def compute_response_time (content_delivery_time user_response_time : ℚ) : ℚ :=
  user_response_time - content_delivery_time

/-- A dialog message as read by `compute_followups_count`. -/
structure DialogMessage where
  sender_type : Option String := none
  role : Option String := none
  deriving DecidableEq, Repr

/-- `compute_followups_count`: user-authored turns after the first,
`max(0, len(user_messages) - 1)` (ℕ subtraction is already clamped at 0). -/
def compute_followups_count (dialog_messages : List DialogMessage) : Nat :=
  let user_messages := dialog_messages.filter
    (fun m => m.sender_type = some "user" || m.role = some "user")
  user_messages.length - 1

/-! ## update_topic_mastery_ema  (app/core/metrics/aggregators.py) -/

/-- `update_topic_mastery_ema(current, new_score, alpha)`:
`alpha * new_score + (1 - alpha) * current_mastery`. -/
def update_topic_mastery_ema (current_mastery new_score alpha : ℚ) : ℚ :=
  alpha * new_score + (1 - alpha) * current_mastery

/-! ## AdaptationConfig  (app/core/adaptation/config.py)

The environment-variable overrides default to the constants below; the
defaults are what we verify against.
-/

def DIFFICULTY_LEVELS : List String := ["easy", "normal", "hard", "challenge"]
def FORMATS : List String := ["text", "visual", "video", "interactive"]

/-- `DIFFICULTY_ORDER` dict lookup: `easy↦1, normal↦2, hard↦3, challenge↦4`. -/
def DIFFICULTY_ORDER (d : String) : Option Int :=
  if d = "easy" then some 1
  else if d = "normal" then some 2
  else if d = "hard" then some 3
  else if d = "challenge" then some 4
  else none

/-- `DIFFICULTY_FROM_ORDER` dict lookup; callers only pass clamped 1..4. -/
def DIFFICULTY_FROM_ORDER (n : Int) : String :=
  if n = 1 then "easy"
  else if n = 2 then "normal"
  else if n = 3 then "hard"
  else "challenge"

def ACCURACY_HIGH_THRESHOLD : ℚ := 0.8
def ACCURACY_MEDIUM_THRESHOLD : ℚ := 0.5
def ACCURACY_LOW_THRESHOLD : ℚ := 0.5
def RESPONSE_TIME_FAST_THRESHOLD : ℚ := 30
def RESPONSE_TIME_NORMAL_MAX : ℚ := 90
def RESPONSE_TIME_SLOW_THRESHOLD : ℚ := 120
def MASTERY_STRUGGLING_THRESHOLD : ℚ := 0.4
def FOLLOWUPS_HIGH_THRESHOLD : Int := 3
def SESSION_LENGTH_LONG_MINUTES : ℚ := 60
def SESSION_INTERACTIONS_HIGH : Nat := 20
def SESSION_FATIGUE_RT_INCREASE_PERCENT : ℚ := 0.3
def MIN_METRICS_FOR_HIGH_CONFIDENCE : Nat := 5
def MIN_METRICS_FOR_MEDIUM_CONFIDENCE : Nat := 3
def DEFAULT_DIFFICULTY : String := "normal"
def DEFAULT_FORMAT : String := "text"
def DEFAULT_PACE : String := "medium"
def DEFAULT_TEMPO : String := "normal"

/-- `AdaptationConfig.get_difficulty_change(current, change)`:
clamp `order(current) + change` into 1..4 and map back; unknown level
falls back to the default difficulty. -/
def get_difficulty_change (current : String) (change : Int) : String :=
  match DIFFICULTY_ORDER current with
  | none => DEFAULT_DIFFICULTY
  | some current_level => DIFFICULTY_FROM_ORDER (max 1 (min 4 (current_level + change)))

/-! ## Data model of the rules adapter  (app/core/adaptation/rules.py) -/

/-- Arithmetic mean of a list (Python `sum(l)/len(l)`; callers guard `l ≠ []`). -/
def mean (l : List ℚ) : ℚ := l.sum / l.length

/-- Python `int(q)` for a float: truncation toward zero. -/
def pyInt (q : ℚ) : Int := q.num.tdiv q.den

/-- Python `x or d` where `x` is an optional float: `None` and `0.0` are falsy. -/
def pyOrQ (x : Option ℚ) (d : ℚ) : ℚ :=
  match x with
  | some q => if q ≠ 0 then q else d
  | none => d

/-- Display of a rational inside a reasoning string; stands in for
Python float formatting, which the decisions never inspect. -/
def fmtQ (q : ℚ) : String := toString q

/-- A metric record as consumed by `_build_metrics_summary`. -/
structure MetricRecord where
  metric_name : String
  metric_value_f : Option ℚ
  deriving DecidableEq, Repr

/-- `MetricsSummary` dataclass. -/
structure MetricsSummary where
  recent_accuracy : List ℚ := []
  avg_accuracy : Option ℚ := none
  recent_response_times : List ℚ := []
  avg_response_time : Option ℚ := none
  total_followups : Int := 0
  avg_followups_per_interaction : ℚ := 0
  total_attempts : Int := 0
  response_times_chronological : List ℚ := []
  deriving DecidableEq, Repr, Inhabited

/-- `MetricsSummary.has_data`. -/
def MetricsSummary.has_data (s : MetricsSummary) : Bool :=
  s.recent_accuracy ≠ [] || s.recent_response_times ≠ []

/-- `MetricsSummary.sample_size`. -/
def MetricsSummary.sample_size (s : MetricsSummary) : Nat :=
  max s.recent_accuracy.length s.recent_response_times.length

/-- `SessionContext` dataclass; timestamps are rational epoch-seconds. -/
structure SessionContext where
  dialog_id : Option Nat := none
  session_start_time : Option ℚ := none
  messages_count : Nat := 0
  current_topic : Option String := none
  deriving DecidableEq, Repr, Inhabited

/-- `SessionContext.session_duration_minutes`, with `datetime.utcnow()`
made explicit as the parameter `now`. -/
def SessionContext.session_duration_minutes (ctx : SessionContext) (now : ℚ) : ℚ :=
  match ctx.session_start_time with
  | none => 0
  | some t => (now - t) / 60

/-- `SessionContext.has_session_data`. -/
def SessionContext.has_session_data (ctx : SessionContext) : Bool :=
  ctx.dialog_id.isSome && ctx.session_start_time.isSome

structure DifficultyDecision where
  recommended_difficulty : String
  confidence : ℚ
  reasoning : String
  change_from_current : Int := 0
  deriving DecidableEq, Repr

structure FormatDecision where
  recommended_format : String
  confidence : ℚ
  reasoning : String
  deriving DecidableEq, Repr

structure TempoDecision where
  recommended_tempo : String
  confidence : ℚ
  reasoning : String
  deriving DecidableEq, Repr

structure RemediationTopics where
  topics : List String := []
  mastery_scores : List (String × ℚ) := []
  reasoning : String := ""
  deriving DecidableEq, Repr

/-- The recommendation `metadata` dict; keys absent from a given dict are
modelled as `none`. -/
structure RecMetadata where
  strategy : String
  config_version : Option String := none
  metrics_sample_size : Option Nat := none
  has_session_context : Option Bool := none
  timestamp : ℚ
  error : Option String := none
  is_fallback : Option Bool := none
  deriving DecidableEq, Repr

structure AdaptationRecommendation where
  difficulty : DifficultyDecision
  format : FormatDecision
  tempo : TempoDecision
  remediation : RemediationTopics
  overall_confidence : ℚ
  overall_reasoning : String
  metadata : RecMetadata
  deriving DecidableEq, Repr

/-- The user-profile dict handed to the rules adapter (and the ORM row it
is built from). -/
structure Profile where
  topic_mastery : List (String × ℚ) := []
  current_difficulty : String := "normal"
  preferred_format : Option String := none
  learning_pace : String := "medium"
  avg_accuracy : Option ℚ := none
  avg_response_time : Option ℚ := none
  deriving DecidableEq, Repr, Inhabited

/-! ## RulesAdapter  (app/core/adaptation/rules.py) -/

/-- Loop body of `RulesAdapter._build_metrics_summary`. -/
def metrics_step (s : MetricsSummary) (m : MetricRecord) : MetricsSummary :=
  match m.metric_value_f with
  | none => s
  | some v =>
      if m.metric_name = "accuracy" then
        { s with recent_accuracy := s.recent_accuracy ++ [v] }
      else if m.metric_name = "response_time" then
        { s with recent_response_times := s.recent_response_times ++ [v],
                 response_times_chronological := s.response_times_chronological ++ [v] }
      else if m.metric_name = "followups_count" then
        { s with total_followups := s.total_followups + pyInt v }
      else if m.metric_name = "attempts_count" then
        { s with total_attempts := s.total_attempts + pyInt v }
      else s

/-- The record-collection loop of `RulesAdapter._build_metrics_summary`. -/
def build_metrics_base (recent_metrics : List MetricRecord) : MetricsSummary :=
  recent_metrics.foldl metrics_step {}

/-- `RulesAdapter._build_metrics_summary`: parse raw metric records, then
fill in the averages. -/
def build_metrics_summary (recent_metrics : List MetricRecord) : MetricsSummary :=
  let base := build_metrics_base recent_metrics
  let s1 := if base.recent_accuracy ≠ [] then
    { base with avg_accuracy := some (mean base.recent_accuracy) } else base
  let s2 := if s1.recent_response_times ≠ [] then
    { s1 with avg_response_time := some (mean s1.recent_response_times) } else s1
  if s2.sample_size > 0 then
    { s2 with avg_followups_per_interaction := (s2.total_followups : ℚ) / (s2.sample_size : ℚ) }
  else s2

/-- `RulesAdapter._calculate_confidence`: step function of the sample size. -/
def calculate_confidence (sample_size : Nat) : ℚ :=
  if sample_size ≥ MIN_METRICS_FOR_HIGH_CONFIDENCE then 0.9
  else if sample_size ≥ MIN_METRICS_FOR_MEDIUM_CONFIDENCE then 0.7
  else if sample_size > 0 then 0.5
  else 0.3

/-- `RulesAdapter._detect_fatigue`: compare the second-half average of the
chronological response times against the first-half average. -/
def detect_fatigue (metrics_summary : MetricsSummary) : Bool :=
  let rts := metrics_summary.response_times_chronological
  if rts.length < 3 then false
  else
    let mid := rts.length / 2
    let first_half_avg := if rts.take mid ≠ [] then mean (rts.take mid) else 0
    let second_half_avg := if rts.drop mid ≠ [] then mean (rts.drop mid) else 0
    if first_half_avg = 0 then false
    else decide ((second_half_avg - first_half_avg) / first_half_avg
      > SESSION_FATIGUE_RT_INCREASE_PERCENT)

/-- The averages `decide_difficulty` actually works with:
`metrics_summary.avg_accuracy or (recompute-or-0.5)` (and likewise for the
response time with default 60.0). -/
def effective_avg_accuracy (ms : MetricsSummary) : ℚ :=
  pyOrQ ms.avg_accuracy (if ms.recent_accuracy ≠ [] then mean ms.recent_accuracy else 0.5)

def effective_avg_response_time (ms : MetricsSummary) : ℚ :=
  pyOrQ ms.avg_response_time
    (if ms.recent_response_times ≠ [] then mean ms.recent_response_times else 60)

/-- `RulesAdapter.decide_difficulty`. -/
def decide_difficulty (user_profile : Profile) (ms : MetricsSummary) : DifficultyDecision :=
  let current_difficulty := user_profile.current_difficulty
  if ¬ ms.has_data then
    { recommended_difficulty := current_difficulty
      confidence := 0.3
      reasoning := "No recent performance data available. Keeping current difficulty."
      change_from_current := 0 }
  else
    let avg_accuracy := effective_avg_accuracy ms
    let avg_rt := effective_avg_response_time ms
    let confidence := calculate_confidence ms.sample_size
    let change : Int :=
      if avg_accuracy ≥ ACCURACY_HIGH_THRESHOLD ∧ avg_rt < RESPONSE_TIME_NORMAL_MAX then 1
      else if avg_accuracy < ACCURACY_LOW_THRESHOLD ∨ avg_rt > RESPONSE_TIME_SLOW_THRESHOLD then -1
      else 0
    let new_difficulty := get_difficulty_change current_difficulty change
    let perf_part :=
      if avg_accuracy ≥ ACCURACY_HIGH_THRESHOLD ∧ avg_rt < RESPONSE_TIME_NORMAL_MAX then
        "High accuracy (" ++ fmtQ avg_accuracy ++ ") and fast response time ("
          ++ fmtQ avg_rt ++ "s) indicate mastery"
      else if avg_accuracy < ACCURACY_LOW_THRESHOLD ∨ avg_rt > RESPONSE_TIME_SLOW_THRESHOLD then
        (if avg_accuracy < ACCURACY_LOW_THRESHOLD then
          "Low accuracy (" ++ fmtQ avg_accuracy ++ ") indicates difficulty. " else "")
        ++ (if avg_rt > RESPONSE_TIME_SLOW_THRESHOLD then
          "Slow response time (" ++ fmtQ avg_rt ++ "s) suggests struggling" else "")
      else
        "Moderate performance (accuracy: " ++ fmtQ avg_accuracy
          ++ ", response time: " ++ fmtQ avg_rt ++ "s)"
    let change_part :=
      if change > 0 then
        "Increasing difficulty from " ++ current_difficulty ++ " to " ++ new_difficulty
      else if change < 0 then
        "Decreasing difficulty from " ++ current_difficulty ++ " to " ++ new_difficulty
      else "Maintaining " ++ current_difficulty ++ " difficulty"
    { recommended_difficulty := new_difficulty
      confidence := confidence
      reasoning := perf_part ++ ". " ++ change_part ++ "."
      change_from_current := change }

/-- `RulesAdapter.decide_format`, non-preference path. -/
def decide_format_core (ms : MetricsSummary) : FormatDecision :=
  if ¬ ms.has_data then
    { recommended_format := DEFAULT_FORMAT
      confidence := 0.3
      reasoning := "No interaction data. Starting with text format." }
  else
    let avg_accuracy := if ms.recent_accuracy ≠ [] then mean ms.recent_accuracy else 0.5
    let avg_rt := if ms.recent_response_times ≠ [] then mean ms.recent_response_times else 60
    let confidence := calculate_confidence ms.sample_size
    if ms.total_followups > FOLLOWUPS_HIGH_THRESHOLD then
      { recommended_format := "visual"
        confidence := confidence
        reasoning := "High number of followup questions (" ++ toString ms.total_followups
          ++ ") suggests need for more visual support." }
    else if avg_accuracy ≥ ACCURACY_HIGH_THRESHOLD ∧ avg_rt < RESPONSE_TIME_FAST_THRESHOLD then
      { recommended_format := "text"
        confidence := confidence
        reasoning := "High accuracy (" ++ fmtQ avg_accuracy ++ ") with fast responses ("
          ++ fmtQ avg_rt ++ "s) indicates efficient text-based learning." }
    else if avg_rt > RESPONSE_TIME_SLOW_THRESHOLD then
      { recommended_format := "video"
        confidence := confidence
        reasoning := "Slow response times (" ++ fmtQ avg_rt
          ++ "s) suggest need for detailed video explanations." }
    else if avg_accuracy < ACCURACY_MEDIUM_THRESHOLD then
      { recommended_format := "interactive"
        confidence := confidence
        reasoning := "Moderate accuracy (" ++ fmtQ avg_accuracy
          ++ ") benefits from interactive practice." }
    else
      { recommended_format := "text"
        confidence := confidence
        reasoning := "Standard text format for balanced performance." }

/-- `RulesAdapter.decide_format`: an explicit valid preferred format wins. -/
def decide_format (user_profile : Profile) (ms : MetricsSummary) : FormatDecision :=
  match user_profile.preferred_format with
  | some f =>
      if f ≠ "" ∧ f ∈ FORMATS then
        { recommended_format := f
          confidence := 0.9
          reasoning := "Using user preferred format: " ++ f }
      else decide_format_core ms
  | none => decide_format_core ms

/-- `RulesAdapter.decide_tempo`; `datetime.utcnow()` is the parameter `now`. -/
def decide_tempo (user_profile : Profile) (ms : MetricsSummary)
    (session_context : SessionContext) (now : ℚ) : TempoDecision :=
  let learning_pace := user_profile.learning_pace
  if ¬ session_context.has_session_data then
    { recommended_tempo := DEFAULT_TEMPO
      confidence := 0.5
      reasoning := "No session context. Using normal tempo." }
  else
    let session_minutes := session_context.session_duration_minutes now
    let interactions := session_context.messages_count
    let confidence := min 0.9 (0.5 + ((interactions : ℚ) / 20) * 0.4)
    if session_minutes > SESSION_LENGTH_LONG_MINUTES then
      { recommended_tempo := "break"
        confidence := confidence
        reasoning := "Session duration (" ++ fmtQ session_minutes
          ++ " minutes) exceeds recommended time. Consider taking a break to maintain effectiveness." }
    else if interactions > SESSION_INTERACTIONS_HIGH then
      { recommended_tempo := "slow"
        confidence := confidence
        reasoning := "High number of interactions (" ++ toString interactions
          ++ ") in this session. Slowing down for better retention." }
    else if detect_fatigue ms then
      { recommended_tempo := "slow"
        confidence := confidence
        reasoning := "Response times are increasing, suggesting fatigue. Reducing pace." }
    else if learning_pace = "fast" ∧ interactions < 10 then
      { recommended_tempo := "fast"
        confidence := confidence
        reasoning := "Learner pace preference is fast and session is still fresh." }
    else
      { recommended_tempo := "normal"
        confidence := confidence
        reasoning := "Session is progressing well (" ++ toString interactions
          ++ " interactions, " ++ fmtQ session_minutes ++ " min)." }

/-- Value lookup in a mastery map (`struggling_topics[t]`). -/
def masteryLookup (m : List (String × ℚ)) (k : String) : ℚ :=
  match m.find? (fun p => p.1 = k) with
  | some p => p.2
  | none => 0

/-- `RulesAdapter.identify_remediation`: topics with mastery below the
struggling threshold, weakest first (Python `sorted` is stable). -/
def identify_remediation (user_profile : Profile) : RemediationTopics :=
  let topic_mastery := user_profile.topic_mastery
  if topic_mastery = [] then
    { topics := [], mastery_scores := []
      reasoning := "No topic mastery data available yet." }
  else
    let struggling_topics := topic_mastery.filter
      (fun p => p.2 < MASTERY_STRUGGLING_THRESHOLD)
    if struggling_topics = [] then
      { topics := [], mastery_scores := []
        reasoning := "All topics have adequate mastery levels (≥0.4)." }
    else
      let sorted_topics := struggling_topics.mergeSort (fun a b => a.2 ≤ b.2)
      let topics_list := sorted_topics.map Prod.fst
      { topics := topics_list
        mastery_scores := struggling_topics
        reasoning := "Identified " ++ toString topics_list.length
          ++ " topic(s) needing remediation: "
          ++ String.intercalate ", " ((topics_list.take 3).map
              (fun t => t ++ " (" ++ fmtQ (masteryLookup struggling_topics t) ++ ")"))
          ++ ". Focus on strengthening fundamentals in these areas." }

/-- `RulesAdapter._generate_overall_reasoning`. -/
def generate_overall_reasoning (difficulty : DifficultyDecision)
    (format_dec : FormatDecision) (tempo : TempoDecision)
    (remediation : RemediationTopics) (metrics : MetricsSummary) : String :=
  let parts :=
    (if difficulty.change_from_current ≠ 0 then
      ["Adjusting to " ++ difficulty.recommended_difficulty
        ++ " difficulty based on recent performance"] else [])
    ++ ["Recommending " ++ format_dec.recommended_format ++ " format"]
    ++ (if tempo.recommended_tempo ≠ "normal" then
      ["Suggesting " ++ tempo.recommended_tempo ++ " pace"] else [])
    ++ (if remediation.topics ≠ [] then
      ["Focus areas: " ++ String.intercalate ", " (remediation.topics.take 2)] else [])
    ++ [if metrics.sample_size > 0 then
        "Based on " ++ toString metrics.sample_size ++ " recent interactions"
      else "Initial recommendation (cold start)"]
  String.intercalate ". " parts ++ "."

/-- `RulesAdapter.get_recommendation`: compose the four decisions. -/
def rules_get_recommendation (user_profile : Profile)
    (recent_metrics : List MetricRecord)
    (session_context : Option SessionContext) (now : ℚ) : AdaptationRecommendation :=
  let ms := build_metrics_summary recent_metrics
  let context := session_context.getD {}
  let difficulty_decision := decide_difficulty user_profile ms
  let format_decision := decide_format user_profile ms
  let tempo_decision := decide_tempo user_profile ms context now
  let remediation := identify_remediation user_profile
  let overall_confidence :=
    (difficulty_decision.confidence + format_decision.confidence
      + tempo_decision.confidence) / 3
  { difficulty := difficulty_decision
    format := format_decision
    tempo := tempo_decision
    remediation := remediation
    overall_confidence := overall_confidence
    overall_reasoning := generate_overall_reasoning difficulty_decision
      format_decision tempo_decision remediation ms
    metadata :=
      { strategy := "rules"
        config_version := some "1.0"
        metrics_sample_size := some ms.sample_size
        has_session_context := some context.has_session_data
        timestamp := now } }

/-! ## AdaptationEngine  (app/core/adaptation/engine.py)

The database is modelled as an environment of query results; a query that
raises is an `Except.error` carrying the exception text.  `dialog_id=None`
and the default `context_overrides=None` of the Python signature are the
modelled defaults.
-/

/-- A dialog row as read by `_build_session_context`. -/
structure Dialog where
  started_at : Option ℚ := none
  topic : Option String := none
  deriving DecidableEq, Repr

/-- Results of the four database interactions of one
`AdaptationEngine.get_recommendation` call. -/
structure EngineEnv where
  profileQuery : Except String (Option Profile)
  metricsQuery : Except String (List MetricRecord)
  dialogQuery : Except String (Option Dialog)
  messagesCountQuery : Except String Nat

/-- The default profile synthesized for a missing user profile. -/
def default_profile (user_id : Nat) : Profile :=
  let _ := user_id
  { topic_mastery := []
    current_difficulty := DEFAULT_DIFFICULTY
    preferred_format := none
    learning_pace := DEFAULT_PACE
    avg_accuracy := none
    avg_response_time := none }

/-- `AdaptationEngine._fetch_user_profile`: a failing query is re-raised as
`DataFetchError`; a missing profile becomes the default profile. -/
def fetch_user_profile (env : EngineEnv) (user_id : Nat) : Except String Profile :=
  match env.profileQuery with
  | .error e => .error ("Failed to fetch user profile: " ++ e)
  | .ok none => .ok (default_profile user_id)
  | .ok (some profile) => .ok profile

/-- `AdaptationEngine._fetch_recent_metrics`: a failing query is swallowed
and degraded to the empty list. -/
def fetch_recent_metrics (env : EngineEnv) : List MetricRecord :=
  match env.metricsQuery with
  | .error _ => []
  | .ok l => l

/-- `AdaptationEngine._build_session_context`: any failure or missing
dialog degrades to the empty context (`dialog_id=0` is falsy in Python). -/
def build_session_context (env : EngineEnv) (dialog_id : Option Nat) : SessionContext :=
  match dialog_id with
  | none => {}
  | some did =>
      if did = 0 then {}
      else
        match env.dialogQuery with
        | .error _ => {}
        | .ok none => {}
        | .ok (some dialog) =>
            match env.messagesCountQuery with
            | .error _ => {}
            | .ok messages_count =>
                { dialog_id := some did
                  session_start_time := dialog.started_at
                  messages_count := messages_count
                  current_topic := dialog.topic }

/-- `AdaptationEngine._fallback_recommendation`. -/
def fallback_recommendation (user_id : Nat) (error_msg : String) (now : ℚ) :
    AdaptationRecommendation :=
  let _ := user_id
  { difficulty :=
      { recommended_difficulty := DEFAULT_DIFFICULTY
        confidence := 0.1
        reasoning := "Fallback: Using default difficulty due to system error"
        change_from_current := 0 }
    format :=
      { recommended_format := DEFAULT_FORMAT
        confidence := 0.1
        reasoning := "Fallback: Using default format due to system error" }
    tempo :=
      { recommended_tempo := DEFAULT_TEMPO
        confidence := 0.1
        reasoning := "Fallback: Using normal tempo due to system error" }
    remediation :=
      { topics := []
        mastery_scores := []
        reasoning := "Fallback: No remediation data available" }
    overall_confidence := 0.1
    overall_reasoning := "System fallback recommendation (error occurred). Using safe defaults: "
      ++ DEFAULT_DIFFICULTY ++ " difficulty, " ++ DEFAULT_FORMAT ++ " format."
    metadata :=
      { strategy := "fallback"
        error := some error_msg
        timestamp := now
        is_fallback := some true } }

/-- The body of the `try` block of `AdaptationEngine.get_recommendation`:
steps 1–4 (fetch profile, fetch metrics, build context, run the rules
adapter, which is total). -/
def engine_pipeline (env : EngineEnv) (user_id : Nat) (dialog_id : Option Nat)
    (now : ℚ) : Except String AdaptationRecommendation :=
  match fetch_user_profile env user_id with
  | .error e => .error e
  | .ok user_profile =>
      let recent_metrics := fetch_recent_metrics env
      let session_context := build_session_context env dialog_id
      .ok (rules_get_recommendation user_profile recent_metrics (some session_context) now)

/-- `AdaptationEngine.get_recommendation`: the whole pipeline under one
catch-all that converts any exception into the fallback recommendation. -/
def engine_get_recommendation (env : EngineEnv) (user_id : Nat)
    (dialog_id : Option Nat) (now : ℚ) : AdaptationRecommendation :=
  match engine_pipeline env user_id dialog_id now with
  | .ok recommendation => recommendation
  | .error e => fallback_recommendation user_id e now

/-! ## Content selection  (app/services/recommendation_service.py,
app/services/content_service.py)

The catalog stands for the content table in database order; the random
jitter of `_rank_and_select` and the row chosen by `get_random_content`
are explicit parameters.
-/

/-- A content row as used by the selection ladder. -/
structure ContentItem where
  content_id : Nat
  topic : String
  difficulty_level : String
  format : String
  content_type : String
  deriving DecidableEq, Repr, Inhabited

/-- One optional filter of `get_content_by_filters`: `if f: query.filter(...)`
(`None` and `""` are falsy, so they do not constrain). -/
def filterMatch (fopt : Option String) (v : String) : Bool :=
  match fopt with
  | none => true
  | some f => if f = "" then true else v = f

/-- The content types `validate_filter_values` accepts (the service
hardcodes the same difficulty and format lists as the config). -/
def ALLOWED_CONTENT_TYPES : List String := ["lesson", "exercise", "quiz", "explanation"]

/-- One check of `validate_filter_values`:
`if value and value not in allowed` (falsy values are not validated). -/
def invalid_filter (value : Option String) (allowed : List String) : Bool :=
  match value with
  | none => false
  | some s => s ≠ "" && s ∉ allowed

/-- Python single-quote character, used in the `InvalidFilterError` texts. -/
def pySq : String := String.singleton (Char.ofNat 39)

/-- `validate_filter_values`: raises `InvalidFilterError` for any truthy
filter value outside its allowed set. -/
def validate_filter_values (difficulty fmt content_type : Option String) :
    Except String Unit :=
  if invalid_filter difficulty DIFFICULTY_LEVELS then
    .error ("Invalid difficulty " ++ pySq ++ difficulty.getD "" ++ pySq
      ++ ". Must be one of: " ++ String.intercalate ", " DIFFICULTY_LEVELS)
  else if invalid_filter fmt FORMATS then
    .error ("Invalid format " ++ pySq ++ fmt.getD "" ++ pySq
      ++ ". Must be one of: " ++ String.intercalate ", " FORMATS)
  else if invalid_filter content_type ALLOWED_CONTENT_TYPES then
    .error ("Invalid content_type " ++ pySq ++ content_type.getD "" ++ pySq
      ++ ". Must be one of: " ++ String.intercalate ", " ALLOWED_CONTENT_TYPES)
  else .ok ()

/-- The query `get_content_by_filters` runs after validation
(topic/difficulty/format filters, limit capped at 100, offset 0). -/
def content_query_results (catalog : List ContentItem)
    (topic difficulty fmt : Option String) (limit : Nat) : List ContentItem :=
  let limit := if limit > 100 then 100 else limit
  (catalog.filter (fun c =>
    filterMatch topic c.topic && filterMatch difficulty c.difficulty_level
      && filterMatch fmt c.format)).take limit

/-- `get_content_by_filters`: validate the filter values (fail-fast with
`InvalidFilterError`), then query. -/
def get_content_by_filters (catalog : List ContentItem)
    (topic difficulty fmt : Option String) (limit : Nat) :
    Except String (List ContentItem) :=
  match validate_filter_values difficulty fmt none with
  | .error e => .error e
  | .ok _ => .ok (content_query_results catalog topic difficulty fmt limit)

/-- `RecommendationService._query_content_with_exclusions`; a validation
error propagates. -/
def query_content_with_exclusions (catalog : List ContentItem)
    (topic difficulty fmt : Option String) (exclude_ids : List Nat)
    (limit : Nat) : Except String (List ContentItem) :=
  match get_content_by_filters catalog topic difficulty fmt limit with
  | .error e => .error e
  | .ok content_items =>
      .ok (if exclude_ids ≠ [] then
        content_items.filter (fun item => ¬ item.content_id ∈ exclude_ids)
      else content_items)

/-- The candidate set one ladder tier works with: the limited query result
with the excluded ids removed (the value `_query_content_with_exclusions`
returns when validation passes). -/
def tier_candidates (catalog : List ContentItem)
    (topic difficulty fmt : Option String) (exclude_ids : List Nat)
    (limit : Nat) : List ContentItem :=
  let content_items := content_query_results catalog topic difficulty fmt limit
  if exclude_ids ≠ [] then
    content_items.filter (fun item => ¬ item.content_id ∈ exclude_ids)
  else content_items

/-- Content-type preference weights of `_rank_and_select`. -/
def content_type_score (t : String) : ℚ :=
  if t = "exercise" then 2
  else if t = "quiz" then 1.5
  else if t = "lesson" then 1
  else if t = "explanation" then 0.5
  else 0

/-- Deterministic part of the `_rank_and_select` score of one item. -/
def score_item (rec : AdaptationRecommendation) (item : ContentItem) : ℚ :=
  (if item.difficulty_level = rec.difficulty.recommended_difficulty then 3 else 0)
  + (if item.format = rec.format.recommended_format then 2 else 0)
  + (if rec.remediation.topics ≠ [] ∧ item.topic ∈ rec.remediation.topics then 5 else 0)
  + content_type_score item.content_type

/-- First pair attaining the maximal score — the head of Python's stable
sort in descending score order. -/
def bestScored (b : ContentItem × ℚ) (l : List (ContentItem × ℚ)) : ContentItem × ℚ :=
  l.foldl (fun acc x => if x.2 > acc.2 then x else acc) b

/-- `RecommendationService._rank_and_select`; `jitter i` is the
`random.uniform(-1.0, 1.0)` drawn for the i-th candidate.  Every caller
guards non-emptiness, so the `[]` case is unreachable. -/
def rank_and_select (candidates : List ContentItem)
    (rec : AdaptationRecommendation) (jitter : Nat → ℚ) : ContentItem :=
  match candidates with
  | [] => default
  | [c] => c
  | _ =>
      match candidates.enum.map (fun p => (p.2, score_item rec p.2 + jitter p.1)) with
      | [] => default
      | h :: t => (bestScored h t).1

/-- `RecommendationService._select_best_content`: the graduated five-tier
relaxation ladder.  A tier query that raises (`InvalidFilterError`)
propagates uncaught; `random_pick` is the row `get_random_content` returns
from the whole catalog (`none` when the catalog is empty), and the final
`Exception("No content available in database")` is the error case. -/
def select_best_content (catalog : List ContentItem) (topic : Option String)
    (difficulty fmt : String) (exclude_ids : List Nat)
    (rec : AdaptationRecommendation) (jitter : Nat → ℚ)
    (random_pick : Option ContentItem) : Except String ContentItem :=
  match query_content_with_exclusions catalog topic (some difficulty) (some fmt)
      exclude_ids 10 with
  | .error e => .error e
  | .ok tier1 =>
    if tier1 ≠ [] then .ok (rank_and_select tier1 rec jitter)
    else
      let topicTruthy := match topic with | none => false | some t => t ≠ ""
      if topicTruthy then
        match query_content_with_exclusions catalog topic (some difficulty) none
            exclude_ids 10 with
        | .error e => .error e
        | .ok tier2 =>
          if tier2 ≠ [] then .ok (rank_and_select tier2 rec jitter)
          else
            match query_content_with_exclusions catalog topic none (some fmt)
                exclude_ids 10 with
            | .error e => .error e
            | .ok tier3 =>
              if tier3 ≠ [] then .ok (rank_and_select tier3 rec jitter)
              else
                match query_content_with_exclusions catalog topic none none
                    exclude_ids 10 with
                | .error e => .error e
                | .ok tier4 =>
                  if tier4 ≠ [] then .ok (rank_and_select tier4 rec jitter)
                  else
                    match random_pick with
                    | some content => .ok content
                    | none => .error "No content available in database"
      else
        match random_pick with
        | some content => .ok content
        | none => .error "No content available in database"

/-! ## compute_synchronous_metrics / store_metrics
(app/core/metrics/synchronous.py) -/

/-- The `message_data` dict passed to `compute_synchronous_metrics`;
`none` models an absent key. -/
structure MessageData where
  user_id : Nat
  dialog_id : Nat
  message_id : Option Nat := none
  content_id : Option Nat := none
  topic : Option String := none
  user_answer : String
  correct_answer : Option PyVal := none
  content_delivery_time : Option ℚ := none
  user_response_time : ℚ
  attempts : Option Int := none
  attempt_number : Option Int := none
  dialog_messages : Option (List DialogMessage) := none
  deriving Repr

/-- `compute_attempts_count`:
`message_data.get("attempts", message_data.get("attempt_number", 1))`. -/
def compute_attempts_count (md : MessageData) : Int :=
  match md.attempts with
  | some a => a
  | none =>
      match md.attempt_number with
      | some a => a
      | none => 1

/-- The computed metrics record. -/
structure SyncMetrics where
  user_id : Nat
  dialog_id : Nat
  message_id : Option Nat
  content_id : Option Nat
  timestamp : ℚ
  topic : Option String
  accuracy : Option ℚ
  response_time : Option ℚ
  attempts_count : Int
  followups_count : Nat
  deriving Repr

/-- `compute_synchronous_metrics`: accuracy only when the reference answer
is present AND truthy; response time only when a delivery timestamp is
present (a datetime object is always truthy). -/
def compute_synchronous_metrics (md : MessageData) : SyncMetrics :=
  { user_id := md.user_id
    dialog_id := md.dialog_id
    message_id := md.message_id
    content_id := md.content_id
    timestamp := md.user_response_time
    topic := md.topic
    accuracy :=
      match md.correct_answer with
      | some ca =>
          if ca.truthy then compute_accuracy md.user_answer ca "binary" else none
      | none => none
    response_time :=
      match md.content_delivery_time with
      | some t => some (compute_response_time t md.user_response_time)
      | none => none
    attempts_count := compute_attempts_count md
    followups_count :=
      match md.dialog_messages with
      | some msgs => if msgs ≠ [] then compute_followups_count msgs else 0
      | none => 0 }

/-- `store_metrics`, abstracted to the rows it persists: one
`(metric_name, float value)` row per non-null metric. -/
def store_metrics (m : SyncMetrics) : List (String × ℚ) :=
  ([("accuracy", m.accuracy), ("response_time", m.response_time),
    ("attempts_count", some (m.attempts_count : ℚ)),
    ("followups_count", some (m.followups_count : ℚ))]).filterMap
    (fun p => p.2.map (fun v => (p.1, v)))

/-! ## Helper lemmas -/

/-- `DIFFICULTY_FROM_ORDER` always lands in the four canonical levels. -/
lemma DIFFICULTY_FROM_ORDER_mem (n : Int) :
    DIFFICULTY_FROM_ORDER n ∈ DIFFICULTY_LEVELS := by
  unfold DIFFICULTY_FROM_ORDER DIFFICULTY_LEVELS
  split_ifs <;> simp

/-- `get_difficulty_change` only ever returns one of the four canonical levels. -/
lemma get_difficulty_change_mem (current : String) (change : Int) :
    get_difficulty_change current change ∈ DIFFICULTY_LEVELS := by
  unfold get_difficulty_change
  cases h : DIFFICULTY_ORDER current
  · simp [DEFAULT_DIFFICULTY, DIFFICULTY_LEVELS]
  · exact DIFFICULTY_FROM_ORDER_mem _

/-- Folding over any change sequence keeps the level canonical. -/
lemma foldl_get_difficulty_change_mem (start : String) (changes : List Int)
    (hs : start ∈ DIFFICULTY_LEVELS) :
    changes.foldl get_difficulty_change start ∈ DIFFICULTY_LEVELS := by
  induction changes generalizing start with
  | nil => exact hs
  | cons c cs ih => exact ih _ (get_difficulty_change_mem start c)

/-! ## Theorems for the claims -/

/-- C4: the claim states `compute_accuracy` is case-insensitive (after
trimming) in BOTH `binary` and `exact` modes, as does the function's own
docstring; the code lowercases only in `binary` mode, so
`compute_accuracy(" Paris ", "paris", "exact")` yields 0.0 instead of the
documented 1.0. -/
theorem C4_exact_mode_case_sensitive :
    compute_accuracy " Paris " (.flat (.fstr "paris")) "binary" = some 1 ∧
    compute_accuracy " Paris " (.flat (.fstr "paris")) "exact" = some 0 := by
  constructor <;> rfl

/-- C5: repeated `get_difficulty_change` applications never leave
{easy, normal, hard, challenge}; ten increases from "easy" give
"challenge", and another increase stays there. -/
theorem C5_difficulty_closed (start : String) (changes : List Int)
    (hs : start ∈ DIFFICULTY_LEVELS)
    (hc : ∀ c ∈ changes, c = -1 ∨ c = 0 ∨ c = 1) :
    changes.foldl get_difficulty_change start ∈ DIFFICULTY_LEVELS ∧
    (List.replicate 10 (1 : Int)).foldl get_difficulty_change "easy" = "challenge" ∧
    get_difficulty_change "challenge" 1 = "challenge" := by
  refine ⟨foldl_get_difficulty_change_mem start changes hs, by decide, by decide⟩

theorem C5_difficulty_closed_witness :
    ([1] : List Int).foldl get_difficulty_change "easy" ∈ DIFFICULTY_LEVELS ∧
    (List.replicate 10 (1 : Int)).foldl get_difficulty_change "easy" = "challenge" ∧
    get_difficulty_change "challenge" 1 = "challenge" :=
  C5_difficulty_closed "easy" [1] (by decide) (by decide)

/-- C6: the EMA update is `alpha*new_score + (1-alpha)*current`; at
alpha = 0.3 it maps (0.5, 1.0) to 0.65 and (0.5, 0.0) to 0.35, and it
keeps [0,1] inputs inside [0,1]. -/
theorem C6_ema_formula_and_bounds :
    (∀ current new_score alpha : ℚ,
      update_topic_mastery_ema current new_score alpha
        = alpha * new_score + (1 - alpha) * current) ∧
    update_topic_mastery_ema 0.5 1 0.3 = 0.65 ∧
    update_topic_mastery_ema 0.5 0 0.3 = 0.35 ∧
    (∀ current new_score : ℚ, 0 ≤ current → current ≤ 1 →
      0 ≤ new_score → new_score ≤ 1 →
      0 ≤ update_topic_mastery_ema current new_score 0.3 ∧
        update_topic_mastery_ema current new_score 0.3 ≤ 1) := by
  refine ⟨fun _ _ _ => rfl, by norm_num [update_topic_mastery_ema],
    by norm_num [update_topic_mastery_ema], fun current new_score h0c h1c h0n h1n => ?_⟩
  unfold update_topic_mastery_ema
  constructor <;> nlinarith

theorem C6_ema_formula_and_bounds_witness :
    0 ≤ update_topic_mastery_ema 0.5 1 0.3 ∧ update_topic_mastery_ema 0.5 1 0.3 ≤ 1 :=
  C6_ema_formula_and_bounds.2.2.2 0.5 1 (by norm_num) (by norm_num) (by norm_num) (by norm_num)

/-- C7: with a list reference answer, `compute_accuracy` returns 1.0
exactly when the (trimmed, lowercased) user answer equals some element —
a mapping element contributing the value under its `answer` or `value`
key — and 0.0 otherwise, in every mode. -/
theorem C7_list_any_match (user_answer : String) (elems : List PyElem)
    (answer_type : String) :
    (compute_accuracy user_answer (.list elems) answer_type = some 1 ↔
      ∃ e ∈ elems, normCI user_answer = normCI e.extract.toStr) ∧
    ((¬ ∃ e ∈ elems, normCI user_answer = normCI e.extract.toStr) →
      compute_accuracy user_answer (.list elems) answer_type = some 0) := by
  have hred : compute_accuracy user_answer (.list elems) answer_type
      = if elems.any (fun e => normCI user_answer = normCI e.extract.toStr)
        then some 1 else some 0 := rfl
  have hiff : elems.any (fun e => normCI user_answer = normCI e.extract.toStr) = true
      ↔ ∃ e ∈ elems, normCI user_answer = normCI e.extract.toStr := by simp
  rw [hred]
  by_cases hex : ∃ e ∈ elems, normCI user_answer = normCI e.extract.toStr
  · rw [if_pos (hiff.mpr hex)]
    exact ⟨iff_of_true rfl hex, fun h => absurd hex h⟩
  · rw [if_neg (fun h => hex (hiff.mp h))]
    refine ⟨⟨fun h => absurd (Option.some_inj.mp h) (by norm_num), fun h => absurd h hex⟩,
      fun _ => rfl⟩

theorem C7_list_any_match_witness :
    compute_accuracy "x" (.list [.flat (.fstr "y")]) "binary" = some 0 :=
  (C7_list_any_match "x" [.flat (.fstr "y")] "binary").2 (by decide)

/-- C8: fatigue needs ≥3 samples and a non-zero first-half average, and
then fires exactly when the relative second-half slowdown exceeds 0.3;
[10,10,10,10,20,20,20,20] fires, the flat sequence does not. -/
theorem C8_fatigue_characterisation (ms : MetricsSummary) :
    (ms.response_times_chronological.length < 3 → detect_fatigue ms = false) ∧
    (3 ≤ ms.response_times_chronological.length →
      mean (ms.response_times_chronological.take
        (ms.response_times_chronological.length / 2)) = 0 →
      detect_fatigue ms = false) ∧
    (3 ≤ ms.response_times_chronological.length →
      mean (ms.response_times_chronological.take
        (ms.response_times_chronological.length / 2)) ≠ 0 →
      (detect_fatigue ms = true ↔
        (mean (ms.response_times_chronological.drop
            (ms.response_times_chronological.length / 2))
          - mean (ms.response_times_chronological.take
            (ms.response_times_chronological.length / 2)))
        / mean (ms.response_times_chronological.take
            (ms.response_times_chronological.length / 2)) > 0.3)) ∧
    detect_fatigue { response_times_chronological := [10,10,10,10,20,20,20,20] } = true ∧
    detect_fatigue { response_times_chronological := [10,10,10,10,10,10] } = false := by
  refine ⟨?_, ?_, ?_, ?_, ?_⟩
  · intro hlt
    unfold detect_fatigue
    rw [if_pos hlt]
  · intro hge hzero
    have hnlt : ¬ ms.response_times_chronological.length < 3 := not_lt.mpr hge
    have htake : ms.response_times_chronological.take
        (ms.response_times_chronological.length / 2) ≠ [] := by
      intro hnil
      have := congrArg List.length hnil
      rw [List.length_take] at this
      simp only [List.length_nil] at this
      omega
    simp only [detect_fatigue, hnlt, htake, hzero, if_false, ne_eq,
      not_false_eq_true, if_true]
  · intro hge hzero
    have hnlt : ¬ ms.response_times_chronological.length < 3 := not_lt.mpr hge
    have htake : ms.response_times_chronological.take
        (ms.response_times_chronological.length / 2) ≠ [] := by
      intro hnil
      have := congrArg List.length hnil
      rw [List.length_take] at this
      simp only [List.length_nil] at this
      omega
    have hdrop : ms.response_times_chronological.drop
        (ms.response_times_chronological.length / 2) ≠ [] := by
      intro hnil
      have := congrArg List.length hnil
      rw [List.length_drop] at this
      simp only [List.length_nil] at this
      omega
    simp only [detect_fatigue, hnlt, htake, hdrop, hzero, if_false, ne_eq,
      not_false_eq_true, if_true, decide_eq_true_eq, SESSION_FATIGUE_RT_INCREASE_PERCENT]
  · simp only [detect_fatigue]
    norm_num [mean, SESSION_FATIGUE_RT_INCREASE_PERCENT]
    refine ⟨by decide, ?_⟩
    rw [if_neg (by decide : ¬([20,20,20,20] : List ℚ) = [])]
    rw [if_neg (by decide : ¬([10,10,10,10] : List ℚ) = [])]
    norm_num
  · simp only [detect_fatigue]
    norm_num [mean, SESSION_FATIGUE_RT_INCREASE_PERCENT]

theorem C8_fatigue_characterisation_witness :
    detect_fatigue { response_times_chronological := ([1, 2] : List ℚ) } = false :=
  (C8_fatigue_characterisation
    { response_times_chronological := ([1, 2] : List ℚ) }).1 (by decide)

/-- C9 counterexample: a stored start time after the evaluation instant
makes `session_duration_minutes` negative, so the claimed unconditional
non-negativity fails. -/
theorem C9_counterexample :
    ({ session_start_time := some 60 } : SessionContext).session_duration_minutes 0 < 0 := by
  norm_num [SessionContext.session_duration_minutes]

/-- C9 (amended): the duration is 0 whenever the start time is unknown,
and is non-negative whenever the stored start time does not lie after the
evaluation instant. -/
theorem C9_duration_amended (ctx : SessionContext) (now : ℚ) :
    (ctx.session_start_time = none → ctx.session_duration_minutes now = 0) ∧
    (∀ t, ctx.session_start_time = some t → t ≤ now →
      0 ≤ ctx.session_duration_minutes now) := by
  constructor
  · intro h
    unfold SessionContext.session_duration_minutes
    rw [h]
  · intro t ht hle
    unfold SessionContext.session_duration_minutes
    rw [ht]
    have : (0 : ℚ) ≤ now - t := by linarith
    positivity

theorem C9_duration_amended_witness :
    ({} : SessionContext).session_duration_minutes 0 = 0 ∧
    0 ≤ ({ session_start_time := some 0 } : SessionContext).session_duration_minutes 5 :=
  ⟨(C9_duration_amended {} 0).1 rfl,
    (C9_duration_amended { session_start_time := some 0 } 5).2 0 rfl (by norm_num)⟩

/-- C10: a present-but-falsy reference answer (0, "", {}, []) behaves like
an absent one: accuracy is `None` and no accuracy row is stored. -/
theorem C10_falsy_reference_no_accuracy (md : MessageData) (ca : PyVal)
    (hca : md.correct_answer = some ca) (hfalsy : ca.truthy = false) :
    (compute_synchronous_metrics md).accuracy = none ∧
    (compute_synchronous_metrics md).accuracy
      = (compute_synchronous_metrics { md with correct_answer := none }).accuracy ∧
    "accuracy" ∉ (store_metrics (compute_synchronous_metrics md)).map Prod.fst := by
  have hacc : (compute_synchronous_metrics md).accuracy = none := by
    simp [compute_synchronous_metrics, hca, hfalsy]
  refine ⟨hacc, by rw [hacc]; simp [compute_synchronous_metrics], ?_⟩
  unfold store_metrics
  rw [hacc]
  cases (compute_synchronous_metrics md).response_time <;> simp

theorem C10_falsy_reference_no_accuracy_witness :
    (compute_synchronous_metrics
      { user_id := 1, dialog_id := 1, user_answer := "0",
        correct_answer := some (.flat (.fint 0)), user_response_time := 0 }).accuracy
      = none :=
  (C10_falsy_reference_no_accuracy
    { user_id := 1, dialog_id := 1, user_answer := "0",
      correct_answer := some (.flat (.fint 0)), user_response_time := 0 }
    (.flat (.fint 0)) rfl rfl).1

/-! ### Projection lemmas for `build_metrics_summary` (used by C3) -/

lemma metrics_step_avg_accuracy (s : MetricsSummary) (m : MetricRecord) :
    (metrics_step s m).avg_accuracy = s.avg_accuracy := by
  unfold metrics_step
  cases m.metric_value_f
  · rfl
  · split_ifs <;> rfl

lemma metrics_step_avg_response_time (s : MetricsSummary) (m : MetricRecord) :
    (metrics_step s m).avg_response_time = s.avg_response_time := by
  unfold metrics_step
  cases m.metric_value_f
  · rfl
  · split_ifs <;> rfl

lemma build_base_avg_accuracy (l : List MetricRecord) :
    (build_metrics_base l).avg_accuracy = none := by
  unfold build_metrics_base
  have h : ∀ (s : MetricsSummary), s.avg_accuracy = none →
      (l.foldl metrics_step s).avg_accuracy = none := by
    induction l with
    | nil => exact fun s hs => hs
    | cons m ms ih =>
        intro s hs
        exact ih _ ((metrics_step_avg_accuracy s m).trans hs)
  exact h {} rfl

lemma build_base_avg_response_time (l : List MetricRecord) :
    (build_metrics_base l).avg_response_time = none := by
  unfold build_metrics_base
  have h : ∀ (s : MetricsSummary), s.avg_response_time = none →
      (l.foldl metrics_step s).avg_response_time = none := by
    induction l with
    | nil => exact fun s hs => hs
    | cons m ms ih =>
        intro s hs
        exact ih _ ((metrics_step_avg_response_time s m).trans hs)
  exact h {} rfl

lemma build_recent_accuracy (l : List MetricRecord) :
    (build_metrics_summary l).recent_accuracy = (build_metrics_base l).recent_accuracy := by
  simp only [build_metrics_summary]
  split_ifs <;> simp_all [MetricsSummary.sample_size]

lemma build_recent_response_times (l : List MetricRecord) :
    (build_metrics_summary l).recent_response_times
      = (build_metrics_base l).recent_response_times := by
  simp only [build_metrics_summary]
  split_ifs <;> simp_all [MetricsSummary.sample_size]

lemma build_avg_accuracy (l : List MetricRecord) :
    (build_metrics_summary l).avg_accuracy
      = if (build_metrics_base l).recent_accuracy ≠ []
        then some (mean (build_metrics_base l).recent_accuracy) else none := by
  simp only [build_metrics_summary]
  split_ifs <;> simp_all [build_base_avg_accuracy, MetricsSummary.sample_size]

lemma build_avg_response_time (l : List MetricRecord) :
    (build_metrics_summary l).avg_response_time
      = if (build_metrics_base l).recent_response_times ≠ []
        then some (mean (build_metrics_base l).recent_response_times) else none := by
  simp only [build_metrics_summary]
  split_ifs <;> simp_all [build_base_avg_response_time, MetricsSummary.sample_size]

/-- The `or`-with-fallback the code uses collapses to the plain conditional
average (a zero stored average recomputes to the same zero mean). -/
lemma effective_avg_accuracy_build (l : List MetricRecord) :
    effective_avg_accuracy (build_metrics_summary l)
      = if (build_metrics_summary l).recent_accuracy ≠ []
        then mean (build_metrics_summary l).recent_accuracy else 0.5 := by
  unfold effective_avg_accuracy pyOrQ
  rw [build_avg_accuracy, build_recent_accuracy]
  by_cases h : (build_metrics_base l).recent_accuracy = []
  · simp [h]
  · by_cases hm : mean (build_metrics_base l).recent_accuracy = 0
    · simp [h, hm]
    · simp [h, hm]

lemma effective_avg_response_time_build (l : List MetricRecord) :
    effective_avg_response_time (build_metrics_summary l)
      = if (build_metrics_summary l).recent_response_times ≠ []
        then mean (build_metrics_summary l).recent_response_times else 60 := by
  unfold effective_avg_response_time pyOrQ
  rw [build_avg_response_time, build_recent_response_times]
  by_cases h : (build_metrics_base l).recent_response_times = []
  · simp [h]
  · by_cases hm : mean (build_metrics_base l).recent_response_times = 0
    · simp [h, hm]
    · simp [h, hm]

/-- Evaluation of the summary of the spec's example metric window. -/
lemma build_example :
    build_metrics_summary [⟨"accuracy", some 0.9⟩, ⟨"response_time", some 20⟩]
      = { recent_accuracy := [0.9], avg_accuracy := some 0.9,
          recent_response_times := [20], avg_response_time := some 20,
          total_followups := 0, avg_followups_per_interaction := 0,
          total_attempts := 0, response_times_chronological := [20] } := by
  simp [build_metrics_summary, build_metrics_base, metrics_step, MetricsSummary.sample_size, mean]

/-- Evaluation of the spec's example decision. -/
lemma decide_difficulty_example :
    (decide_difficulty { current_difficulty := "normal" }
      (build_metrics_summary [⟨"accuracy", some 0.9⟩, ⟨"response_time", some 20⟩])).recommended_difficulty
      = "hard" ∧
    (decide_difficulty { current_difficulty := "normal" }
      (build_metrics_summary [⟨"accuracy", some 0.9⟩, ⟨"response_time", some 20⟩])).change_from_current
      = 1 := by
  rw [build_example]
  constructor <;>
  · simp [decide_difficulty, MetricsSummary.has_data, MetricsSummary.sample_size,
      effective_avg_accuracy, effective_avg_response_time, pyOrQ, mean,
      calculate_confidence, get_difficulty_change, DIFFICULTY_ORDER, DIFFICULTY_FROM_ORDER,
      ACCURACY_HIGH_THRESHOLD, ACCURACY_LOW_THRESHOLD, RESPONSE_TIME_NORMAL_MAX,
      RESPONSE_TIME_SLOW_THRESHOLD, MIN_METRICS_FOR_HIGH_CONFIDENCE,
      MIN_METRICS_FOR_MEDIUM_CONFIDENCE]
    norm_num

/-- C3: with data present, `decide_difficulty` raises the level exactly
when avg accuracy ≥ 0.8 and avg response time < 90 s, lowers it when
avg accuracy < 0.5 or avg response time > 120 s, else keeps it; the new
level is the clamped order-shift of the current one, confidence is the
5/3/0 step function of sample size, and accuracy 0.9 at 20 s moves
"normal" to "hard" with change +1. -/
theorem C3_decide_difficulty_rules (p : Profile) (recent : List MetricRecord)
    (hdata : (build_metrics_summary recent).has_data = true)
    (a r : ℚ)
    (ha : a = if (build_metrics_summary recent).recent_accuracy ≠ []
      then mean (build_metrics_summary recent).recent_accuracy else 0.5)
    (hr : r = if (build_metrics_summary recent).recent_response_times ≠ []
      then mean (build_metrics_summary recent).recent_response_times else 60) :
    ((decide_difficulty p (build_metrics_summary recent)).change_from_current
      = if a ≥ 0.8 ∧ r < 90 then 1
        else if a < 0.5 ∨ r > 120 then -1 else 0) ∧
    (∀ o : Int, DIFFICULTY_ORDER p.current_difficulty = some o →
      (decide_difficulty p (build_metrics_summary recent)).recommended_difficulty
        = DIFFICULTY_FROM_ORDER (max 1 (min 4 (o +
            (decide_difficulty p (build_metrics_summary recent)).change_from_current)))) ∧
    ((decide_difficulty p (build_metrics_summary recent)).confidence
      = if (build_metrics_summary recent).sample_size ≥ 5 then 0.9
        else if (build_metrics_summary recent).sample_size ≥ 3 then 0.7
        else if (build_metrics_summary recent).sample_size > 0 then 0.5 else 0.3) ∧
    (decide_difficulty { current_difficulty := "normal" }
      (build_metrics_summary [⟨"accuracy", some 0.9⟩, ⟨"response_time", some 20⟩])).recommended_difficulty
      = "hard" ∧
    (decide_difficulty { current_difficulty := "normal" }
      (build_metrics_summary [⟨"accuracy", some 0.9⟩, ⟨"response_time", some 20⟩])).change_from_current
      = 1 := by
  have hcond : ¬ (¬ (build_metrics_summary recent).has_data = true) := by simp [hdata]
  have hchange : (decide_difficulty p (build_metrics_summary recent)).change_from_current
      = (if effective_avg_accuracy (build_metrics_summary recent) ≥ ACCURACY_HIGH_THRESHOLD
            ∧ effective_avg_response_time (build_metrics_summary recent) < RESPONSE_TIME_NORMAL_MAX
          then 1
          else if effective_avg_accuracy (build_metrics_summary recent) < ACCURACY_LOW_THRESHOLD
            ∨ effective_avg_response_time (build_metrics_summary recent) > RESPONSE_TIME_SLOW_THRESHOLD
          then -1 else 0) := by
    simp only [decide_difficulty, if_neg hcond]
  have hrec : (decide_difficulty p (build_metrics_summary recent)).recommended_difficulty
      = get_difficulty_change p.current_difficulty
          ((decide_difficulty p (build_metrics_summary recent)).change_from_current) := by
    simp only [decide_difficulty, if_neg hcond]
  have hconf : (decide_difficulty p (build_metrics_summary recent)).confidence
      = calculate_confidence (build_metrics_summary recent).sample_size := by
    simp only [decide_difficulty, if_neg hcond]
  refine ⟨?_, ?_, ?_, decide_difficulty_example.1, decide_difficulty_example.2⟩
  · rw [hchange, effective_avg_accuracy_build, effective_avg_response_time_build, ← ha, ← hr]
    simp only [ACCURACY_HIGH_THRESHOLD, ACCURACY_LOW_THRESHOLD, RESPONSE_TIME_NORMAL_MAX,
      RESPONSE_TIME_SLOW_THRESHOLD]
  · intro o ho
    rw [hrec]
    simp [get_difficulty_change, ho]
  · rw [hconf]
    simp only [calculate_confidence, MIN_METRICS_FOR_HIGH_CONFIDENCE,
      MIN_METRICS_FOR_MEDIUM_CONFIDENCE]

theorem C3_decide_difficulty_rules_witness :
    (decide_difficulty { current_difficulty := "normal" }
      (build_metrics_summary [⟨"accuracy", some 0.9⟩, ⟨"response_time", some 20⟩])).change_from_current
      = 1 :=
  (C3_decide_difficulty_rules { current_difficulty := "normal" }
    [⟨"accuracy", some 0.9⟩, ⟨"response_time", some 20⟩] (by decide)
    (if (build_metrics_summary
        [⟨"accuracy", some 0.9⟩, ⟨"response_time", some 20⟩]).recent_accuracy ≠ []
      then mean (build_metrics_summary
        [⟨"accuracy", some 0.9⟩, ⟨"response_time", some 20⟩]).recent_accuracy else 0.5)
    (if (build_metrics_summary
        [⟨"accuracy", some 0.9⟩, ⟨"response_time", some 20⟩]).recent_response_times ≠ []
      then mean (build_metrics_summary
        [⟨"accuracy", some 0.9⟩, ⟨"response_time", some 20⟩]).recent_response_times else 60)
    rfl rfl).2.2.2.2

/-- C1 counterexample: an exception raised while fetching the metrics is
swallowed inside `_fetch_recent_metrics` (degrading to `[]`), so the call
returns a normal rules recommendation — not the claimed fallback with
`is_fallback=true` and overall confidence 0.1. -/
theorem C1_counterexample :
    (engine_get_recommendation ⟨.ok none, .error "db down", .ok none, .ok 0⟩
      1 none 0).metadata.is_fallback ≠ some true ∧
    (engine_get_recommendation ⟨.ok none, .error "db down", .ok none, .ok 0⟩
      1 none 0).overall_confidence ≠ 0.1 := by
  constructor
  · have h1 : (engine_get_recommendation ⟨.ok none, .error "db down", .ok none, .ok 0⟩
        1 none 0).metadata.is_fallback = none := rfl
    rw [h1]
    simp
  · have h2 : (engine_get_recommendation ⟨.ok none, .error "db down", .ok none, .ok 0⟩
        1 none 0).overall_confidence = ((0.3 : ℚ) + 0.3 + 0.5) / 3 := rfl
    rw [h2]
    norm_num

/-- C1 (amended): `get_recommendation` never propagates an exception; a
profile-fetch failure yields the fully-populated fallback (all confidences
0.1, empty remediation, `is_fallback=true`, the error text in metadata),
while a metrics-fetch failure is swallowed locally (empty metrics window)
and a session-context-build failure — the dialog query or the message
count query raising — is swallowed locally (empty session context), each
yielding the normal rules recommendation. -/
theorem C1_engine_error_handling (env : EngineEnv) (user_id : Nat)
    (dialog_id : Option Nat) (now : ℚ) :
    (∀ e, env.profileQuery = .error e →
      engine_get_recommendation env user_id dialog_id now
        = fallback_recommendation user_id ("Failed to fetch user profile: " ++ e) now ∧
      (engine_get_recommendation env user_id dialog_id now).difficulty.confidence = 0.1 ∧
      (engine_get_recommendation env user_id dialog_id now).format.confidence = 0.1 ∧
      (engine_get_recommendation env user_id dialog_id now).tempo.confidence = 0.1 ∧
      (engine_get_recommendation env user_id dialog_id now).overall_confidence = 0.1 ∧
      (engine_get_recommendation env user_id dialog_id now).remediation.topics = [] ∧
      (engine_get_recommendation env user_id dialog_id now).metadata.is_fallback = some true ∧
      (engine_get_recommendation env user_id dialog_id now).metadata.error
        = some ("Failed to fetch user profile: " ++ e) ∧
      (engine_get_recommendation env user_id dialog_id now).metadata.strategy = "fallback") ∧
    (∀ p em, env.profileQuery = .ok (some p) → env.metricsQuery = .error em →
      engine_get_recommendation env user_id dialog_id now
        = rules_get_recommendation p [] (some (build_session_context env dialog_id)) now ∧
      (engine_get_recommendation env user_id dialog_id now).metadata.strategy = "rules" ∧
      (engine_get_recommendation env user_id dialog_id now).metadata.is_fallback = none) ∧
    (∀ p ed, env.profileQuery = .ok (some p) → env.dialogQuery = .error ed →
      build_session_context env dialog_id = {} ∧
      engine_get_recommendation env user_id dialog_id now
        = rules_get_recommendation p (fetch_recent_metrics env)
            (some ({} : SessionContext)) now ∧
      (engine_get_recommendation env user_id dialog_id now).metadata.strategy = "rules" ∧
      (engine_get_recommendation env user_id dialog_id now).metadata.is_fallback = none) ∧
    (∀ p ec, env.profileQuery = .ok (some p) → env.messagesCountQuery = .error ec →
      build_session_context env dialog_id = {} ∧
      engine_get_recommendation env user_id dialog_id now
        = rules_get_recommendation p (fetch_recent_metrics env)
            (some ({} : SessionContext)) now ∧
      (engine_get_recommendation env user_id dialog_id now).metadata.strategy = "rules" ∧
      (engine_get_recommendation env user_id dialog_id now).metadata.is_fallback = none) := by
  refine ⟨?_, ?_, ?_, ?_⟩
  · intro e he
    have hres : engine_get_recommendation env user_id dialog_id now
        = fallback_recommendation user_id ("Failed to fetch user profile: " ++ e) now := by
      simp [engine_get_recommendation, engine_pipeline, fetch_user_profile, he]
    rw [hres]
    exact ⟨rfl, rfl, rfl, rfl, rfl, rfl, rfl, rfl, rfl⟩
  · intro p em hp hm
    have hfp : fetch_user_profile env user_id = .ok p := by
      simp [fetch_user_profile, hp]
    have hfm : fetch_recent_metrics env = [] := by
      simp [fetch_recent_metrics, hm]
    have hres : engine_get_recommendation env user_id dialog_id now
        = rules_get_recommendation p [] (some (build_session_context env dialog_id)) now := by
      simp [engine_get_recommendation, engine_pipeline, hfp, hfm]
    rw [hres]
    exact ⟨rfl, rfl, rfl⟩
  · intro p ed hp hd
    have hfp : fetch_user_profile env user_id = .ok p := by
      simp [fetch_user_profile, hp]
    have hctx : build_session_context env dialog_id = {} := by
      unfold build_session_context
      cases dialog_id with
      | none => rfl
      | some did =>
          by_cases h0 : did = 0
          · simp [h0]
          · simp [h0, hd]
    have hres : engine_get_recommendation env user_id dialog_id now
        = rules_get_recommendation p (fetch_recent_metrics env)
            (some ({} : SessionContext)) now := by
      simp [engine_get_recommendation, engine_pipeline, hfp, hctx]
    rw [hres]
    exact ⟨hctx, rfl, rfl, rfl⟩
  · intro p ec hp hc
    have hfp : fetch_user_profile env user_id = .ok p := by
      simp [fetch_user_profile, hp]
    have hctx : build_session_context env dialog_id = {} := by
      unfold build_session_context
      cases dialog_id with
      | none => rfl
      | some did =>
          by_cases h0 : did = 0
          · simp [h0]
          · cases hq : env.dialogQuery with
            | error e => simp [h0, hq]
            | ok od =>
                cases od with
                | none => simp [h0, hq]
                | some d => simp [h0, hq, hc]
    have hres : engine_get_recommendation env user_id dialog_id now
        = rules_get_recommendation p (fetch_recent_metrics env)
            (some ({} : SessionContext)) now := by
      simp [engine_get_recommendation, engine_pipeline, hfp, hctx]
    rw [hres]
    exact ⟨hctx, rfl, rfl, rfl⟩

theorem C1_engine_error_handling_witness :
    engine_get_recommendation ⟨.error "boom", .ok [], .ok none, .ok 0⟩ 1 none 0
      = fallback_recommendation 1 ("Failed to fetch user profile: " ++ "boom") 0 ∧
    (engine_get_recommendation ⟨.error "boom", .ok [], .ok none, .ok 0⟩
      1 none 0).overall_confidence = 0.1 :=
  ⟨((C1_engine_error_handling ⟨.error "boom", .ok [], .ok none, .ok 0⟩ 1 none 0).1
      "boom" rfl).1,
    ((C1_engine_error_handling ⟨.error "boom", .ok [], .ok none, .ok 0⟩ 1 none 0).1
      "boom" rfl).2.2.2.2.1⟩

/-! ### Membership lemmas for the ranking step (used by C2) -/

lemma bestScored_mem (b : ContentItem × ℚ) (l : List (ContentItem × ℚ)) :
    bestScored b l = b ∨ bestScored b l ∈ l := by
  induction l generalizing b with
  | nil => exact Or.inl rfl
  | cons x xs ih =>
      unfold bestScored at ih ⊢
      simp only [List.foldl_cons]
      rcases ih (if x.2 > b.2 then x else b) with h | h
      · rw [h]
        split_ifs
        · exact Or.inr (List.mem_cons_self x xs)
        · exact Or.inl rfl
      · exact Or.inr (List.mem_cons_of_mem x h)

lemma rank_and_select_mem (c : List ContentItem) (rec : AdaptationRecommendation)
    (jitter : Nat → ℚ) (hc : c ≠ []) :
    rank_and_select c rec jitter ∈ c := by
  match c with
  | [] => exact absurd rfl hc
  | [x] => simp [rank_and_select]
  | x :: y :: rest =>
      have hred : rank_and_select (x :: y :: rest) rec jitter
          = (bestScored ((0, x).2, score_item rec (0, x).2 + jitter (0, x).1)
              (((y :: rest).enumFrom 1).map
                (fun p => (p.2, score_item rec p.2 + jitter p.1)))).1 := rfl
      rw [hred]
      rcases bestScored_mem ((0, x).2, score_item rec (0, x).2 + jitter (0, x).1)
          (((y :: rest).enumFrom 1).map
            (fun p => (p.2, score_item rec p.2 + jitter p.1))) with h | h
      · rw [h]
        exact List.mem_cons_self x (y :: rest)
      · rcases List.mem_map.mp h with ⟨p, hp, hfp⟩
        rw [← hfp]
        have hsnd : p.2 ∈ y :: rest := by
          have hmap := List.enumFrom_map_snd 1 (y :: rest)
          rw [← hmap]
          exact List.mem_map_of_mem Prod.snd hp
        exact List.mem_cons_of_mem x hsnd

lemma invalid_filter_none (allowed : List String) :
    invalid_filter none allowed = false := rfl

lemma invalid_filter_of_mem (s : String) (allowed : List String) (h : s ∈ allowed) :
    invalid_filter (some s) allowed = false := by
  simp [invalid_filter, h]

/-- Validation passes when each truthy filter value is canonical. -/
lemma validate_filter_values_ok (difficulty fmt : Option String)
    (h1 : invalid_filter difficulty DIFFICULTY_LEVELS = false)
    (h2 : invalid_filter fmt FORMATS = false) :
    validate_filter_values difficulty fmt none = .ok () := by
  simp [validate_filter_values, h1, h2, invalid_filter_none]

/-- With canonical (or absent) filter values the exclusion query returns
exactly the tier candidate set. -/
lemma query_content_ok (catalog : List ContentItem) (topic : Option String)
    (difficulty fmt : Option String) (exclude_ids : List Nat) (limit : Nat)
    (h1 : invalid_filter difficulty DIFFICULTY_LEVELS = false)
    (h2 : invalid_filter fmt FORMATS = false) :
    query_content_with_exclusions catalog topic difficulty fmt exclude_ids limit
      = .ok (tier_candidates catalog topic difficulty fmt exclude_ids limit) := by
  simp [query_content_with_exclusions, get_content_by_filters,
    validate_filter_values_ok difficulty fmt h1 h2, tier_candidates]

/-- C2: for a truthy topic and canonical difficulty/format (the values the
adaptation engine supplies — non-canonical truthy values fail validation
before any tier is tried), `_select_best_content` walks the five tiers in
order and stops at the first whose post-exclusion candidate set is
non-empty; in particular an empty tier (i) with a non-empty tier (ii)
returns a ranked member of tier (ii), and only four empty tiers reach the
random fallback. -/
theorem C2_graduated_ladder (catalog : List ContentItem) (t : String) (ht : t ≠ "")
    (difficulty fmt : String) (hd : difficulty ∈ DIFFICULTY_LEVELS) (hf : fmt ∈ FORMATS)
    (exclude_ids : List Nat)
    (rec : AdaptationRecommendation) (jitter : Nat → ℚ)
    (random_pick : Option ContentItem) :
    (tier_candidates catalog (some t) (some difficulty) (some fmt)
        exclude_ids 10 ≠ [] →
      select_best_content catalog (some t) difficulty fmt exclude_ids rec jitter random_pick
        = .ok (rank_and_select (tier_candidates catalog (some t)
            (some difficulty) (some fmt) exclude_ids 10) rec jitter)) ∧
    (tier_candidates catalog (some t) (some difficulty) (some fmt)
        exclude_ids 10 = [] →
      tier_candidates catalog (some t) (some difficulty) none
        exclude_ids 10 ≠ [] →
      select_best_content catalog (some t) difficulty fmt exclude_ids rec jitter random_pick
        = .ok (rank_and_select (tier_candidates catalog (some t)
            (some difficulty) none exclude_ids 10) rec jitter) ∧
      rank_and_select (tier_candidates catalog (some t)
            (some difficulty) none exclude_ids 10) rec jitter
        ∈ tier_candidates catalog (some t) (some difficulty) none
            exclude_ids 10) ∧
    (tier_candidates catalog (some t) (some difficulty) (some fmt)
        exclude_ids 10 = [] →
      tier_candidates catalog (some t) (some difficulty) none
        exclude_ids 10 = [] →
      tier_candidates catalog (some t) none (some fmt)
        exclude_ids 10 ≠ [] →
      select_best_content catalog (some t) difficulty fmt exclude_ids rec jitter random_pick
        = .ok (rank_and_select (tier_candidates catalog (some t)
            none (some fmt) exclude_ids 10) rec jitter)) ∧
    (tier_candidates catalog (some t) (some difficulty) (some fmt)
        exclude_ids 10 = [] →
      tier_candidates catalog (some t) (some difficulty) none
        exclude_ids 10 = [] →
      tier_candidates catalog (some t) none (some fmt)
        exclude_ids 10 = [] →
      tier_candidates catalog (some t) none none exclude_ids 10 ≠ [] →
      select_best_content catalog (some t) difficulty fmt exclude_ids rec jitter random_pick
        = .ok (rank_and_select (tier_candidates catalog (some t)
            none none exclude_ids 10) rec jitter)) ∧
    (tier_candidates catalog (some t) (some difficulty) (some fmt)
        exclude_ids 10 = [] →
      tier_candidates catalog (some t) (some difficulty) none
        exclude_ids 10 = [] →
      tier_candidates catalog (some t) none (some fmt)
        exclude_ids 10 = [] →
      tier_candidates catalog (some t) none none exclude_ids 10 = [] →
      select_best_content catalog (some t) difficulty fmt exclude_ids rec jitter random_pick
        = match random_pick with
          | some content => .ok content
          | none => .error "No content available in database") := by
  have hid : invalid_filter (some difficulty) DIFFICULTY_LEVELS = false :=
    invalid_filter_of_mem difficulty DIFFICULTY_LEVELS hd
  have hif : invalid_filter (some fmt) FORMATS = false :=
    invalid_filter_of_mem fmt FORMATS hf
  have q1 := query_content_ok catalog (some t) (some difficulty) (some fmt)
    exclude_ids 10 hid hif
  have q2 := query_content_ok catalog (some t) (some difficulty) none
    exclude_ids 10 hid (invalid_filter_none FORMATS)
  have q3 := query_content_ok catalog (some t) none (some fmt)
    exclude_ids 10 (invalid_filter_none DIFFICULTY_LEVELS) hif
  have q4 := query_content_ok catalog (some t) none none
    exclude_ids 10 (invalid_filter_none DIFFICULTY_LEVELS) (invalid_filter_none FORMATS)
  refine ⟨?_, ?_, ?_, ?_, ?_⟩
  · intro h1
    simp [select_best_content, q1, h1]
  · intro h1 h2
    constructor
    · simp [select_best_content, q1, q2, h1, h2, ht]
    · exact rank_and_select_mem _ rec jitter h2
  · intro h1 h2 h3
    simp [select_best_content, q1, q2, q3, h1, h2, h3, ht]
  · intro h1 h2 h3 h4
    simp [select_best_content, q1, q2, q3, q4, h1, h2, h3, h4, ht]
  · intro h1 h2 h3 h4
    simp [select_best_content, q1, q2, q3, q4, h1, h2, h3, h4, ht]

theorem C2_graduated_ladder_witness :
    select_best_content [⟨1, "algebra", "hard", "video", "exercise"⟩] (some "algebra")
      "hard" "text" [] (fallback_recommendation 1 "e" 0) (fun _ => 0) none
      = .ok ⟨1, "algebra", "hard", "video", "exercise"⟩ ∧
    rank_and_select (tier_candidates
        [⟨1, "algebra", "hard", "video", "exercise"⟩] (some "algebra") (some "hard") none [] 10)
      (fallback_recommendation 1 "e" 0) (fun _ => 0)
      ∈ tier_candidates
        [⟨1, "algebra", "hard", "video", "exercise"⟩] (some "algebra") (some "hard") none [] 10 :=
  ⟨((C2_graduated_ladder [⟨1, "algebra", "hard", "video", "exercise"⟩] "algebra"
      (by decide) "hard" "text" (by decide) (by decide) []
      (fallback_recommendation 1 "e" 0) (fun _ => 0) none).2.1
      (by decide) (by decide)).1,
    ((C2_graduated_ladder [⟨1, "algebra", "hard", "video", "exercise"⟩] "algebra"
      (by decide) "hard" "text" (by decide) (by decide) []
      (fallback_recommendation 1 "e" 0) (fun _ => 0) none).2.1
      (by decide) (by decide)).2⟩

end AdaptiveLMS
